import Mathlib

/-!
Shallow embedding of the "Neon Drift Arena" arcade game (`src/main.py`)
and verification of its specification claims.

Python floats are modelled as real numbers; the process-wide RNG is
modelled as an `Oracle` of injected values (the spec itself asks for an
injected random source); file I/O for the best score is modelled by an
explicit `SaveFile` state plus a ghost log of attempted saves.
-/

namespace NeonDrift

/-- Arena width: `WIDTH, HEIGHT = 960, 600` (src/main.py line 13). -/
def WIDTH : ℝ := 960

/-- Arena height (src/main.py line 13). -/
def HEIGHT : ℝ := 600

/-- Models `clamp(value, a, b) = max(a, min(b, value))` (src/main.py lines 31-32). -/
noncomputable def clamp (value a b : ℝ) : ℝ := max a (min b value)

/-- Python `int(...)` applied to a float: truncation toward zero. -/
noncomputable def pyInt (x : ℝ) : ℤ := if 0 ≤ x then ⌊x⌋ else ⌈x⌉

/-- Planar vector, modelling `pygame.math.Vector2` with real coordinates. -/
structure Vec2 where
  x : ℝ
  y : ℝ

instance : Add Vec2 := ⟨fun a b => ⟨a.x + b.x, a.y + b.y⟩⟩
instance : Sub Vec2 := ⟨fun a b => ⟨a.x - b.x, a.y - b.y⟩⟩
instance : HMul Vec2 ℝ Vec2 := ⟨fun v c => ⟨v.x * c, v.y * c⟩⟩

@[simp] theorem Vec2.add_x (a b : Vec2) : (a + b).x = a.x + b.x := rfl

@[simp] theorem Vec2.add_y (a b : Vec2) : (a + b).y = a.y + b.y := rfl

@[simp] theorem Vec2.sub_x (a b : Vec2) : (a - b).x = a.x - b.x := rfl

@[simp] theorem Vec2.sub_y (a b : Vec2) : (a - b).y = a.y - b.y := rfl

@[simp] theorem Vec2.smul_x (v : Vec2) (c : ℝ) : (v * c).x = v.x * c := rfl

@[simp] theorem Vec2.smul_y (v : Vec2) (c : ℝ) : (v * c).y = v.y * c := rfl

/-- Models `Vector2.length_squared()`: `x*x + y*y`. -/
def Vec2.length_squared (v : Vec2) : ℝ := v.x * v.x + v.y * v.y

/-- Models `Vector2.length()`: Euclidean norm. -/
noncomputable def Vec2.length (v : Vec2) : ℝ := Real.sqrt v.length_squared

/-- Models `Vector2.normalize()`: the vector scaled to length 1 (callers in the
source guard against the zero vector before calling it). -/
noncomputable def Vec2.normalize (v : Vec2) : Vec2 := ⟨v.x / v.length, v.y / v.length⟩

/-- Models `Vector2.lerp(target, t) = self + (target - self) * t`. -/
noncomputable def Vec2.lerp (a target : Vec2) (t : ℝ) : Vec2 := a + (target - a) * t

/-- Countdown timer (src/main.py lines 57-70): `time_left : float`. -/
structure Timer where
  time_left : ℝ

/-- Models `Timer.start(seconds)`: `time_left = max(0.0, float(seconds))` (line 63). -/
noncomputable def Timer.start (seconds : ℝ) : Timer := ⟨max 0 seconds⟩

/-- Models `Timer.update(dt)`: `time_left = max(0.0, time_left - dt)` (line 66). -/
noncomputable def Timer.update (t : Timer) (dt : ℝ) : Timer := ⟨max 0 (t.time_left - dt)⟩

/-- Models `Timer.active`: `time_left > 0.0` (lines 68-70), a pure query. -/
def Timer.active (t : Timer) : Prop := 0 < t.time_left

noncomputable instance (t : Timer) : Decidable t.active := inferInstanceAs (Decidable (0 < t.time_left))

/-- State of the `save_data.json` best-score file, as seen by
`load_best_score`: absent, present but unparsable (any exception while
reading / parsing / coercing), or a parsed integer. -/
inductive SaveFile where
  | absent
  | unparsable
  | valid (n : ℤ)
  deriving DecidableEq

/-- Models `load_best_score()` (src/main.py lines 35-44): returns 0 when the file
is absent, 0 when any exception occurs while reading or parsing, and the
stored integer otherwise.  Total: startup never fails. -/
def load_best_score : SaveFile → ℤ
  | SaveFile.absent => 0
  | SaveFile.unparsable => 0
  | SaveFile.valid n => n

/-- Models `save_best_score(score)` (src/main.py lines 47-54): writes the file;
`ok = false` models an I/O exception, which the source swallows with a
bare `except: pass`, leaving the old file state and returning normally. -/
def save_best_score (ok : Bool) (score : ℤ) (f : SaveFile) : SaveFile :=
  if ok then SaveFile.valid score else f

/-- Cosmetic particle (src/main.py lines 73-85); `draw` is out of scope. -/
structure Particle where
  pos : Vec2
  vel : Vec2
  life : ℝ
  max_life : ℝ
  radius : ℝ
  color : ℕ × ℕ × ℕ

/-- Models `Particle.update(dt)` (lines 82-85). -/
noncomputable def Particle.update (p : Particle) (dt : ℝ) : Particle :=
  { p with
    pos := p.pos + p.vel * dt
    vel := p.vel * (0.97 : ℝ)
    life := p.life - dt }

/-- Keyboard snapshot: the keys `Player.handle_input` reads. -/
structure Keys where
  a : Bool
  d : Bool
  w : Bool
  s : Bool
  left : Bool
  right : Bool
  up : Bool
  down : Bool
  space : Bool
  lshift : Bool
  rshift : Bool
  deriving DecidableEq

/-- The dash chord `keys[K_SPACE] or keys[K_LSHIFT] or keys[K_RSHIFT]`
(src/main.py line 144). -/
def Keys.dash_pressed (k : Keys) : Bool := k.space || k.lshift || k.rshift

/-- Player state (src/main.py lines 102-116).  `__init__` sets
`pos = (WIDTH/2, HEIGHT/2)`, `radius = 16`, `base_speed = 280`,
`alive = True`, three zeroed timers, `dash_direction = (1, 0)`. -/
structure Player where
  pos : Vec2
  vel : Vec2
  radius : ℝ
  base_speed : ℝ
  alive : Bool
  dash_timer : Timer
  dash_cooldown : Timer
  invuln_timer : Timer
  dash_direction : Vec2
  trail_accum : ℝ

/-- Models `Player.__init__` (src/main.py lines 104-116). -/
noncomputable def Player.init : Player :=
  { pos := ⟨WIDTH / 2, HEIGHT / 2⟩
    vel := ⟨0, 0⟩
    radius := 16
    base_speed := 280
    alive := true
    dash_timer := ⟨0⟩
    dash_cooldown := ⟨0⟩
    invuln_timer := ⟨0⟩
    dash_direction := ⟨1, 0⟩
    trail_accum := 0 }

/-- Models `Player.handle_input(dt)` (src/main.py lines 118-150).  The WASD/arrow
intent vector is normalized when nonzero and remembered as
`dash_direction`; during a dash the velocity is forced to
`dash_direction * 780`, otherwise it is lerped toward
`direction * base_speed` with factor `clamp(dt*10, 0, 1)`; a dash chord
press starts the dash (0.12 s), cooldown (1.0 s) and invulnerability
(0.18 s) timers only when neither dash nor cooldown is active. -/
noncomputable def Player.handle_input (p : Player) (keys : Keys) (dt : ℝ) : Player :=
  let dir0 : Vec2 :=
    ⟨(if keys.d || keys.right then 1 else 0) - (if keys.a || keys.left then 1 else 0),
     (if keys.s || keys.down then 1 else 0) - (if keys.w || keys.up then 1 else 0)⟩
  let direction : Vec2 := if 0 < dir0.length_squared then dir0.normalize else ⟨0, 0⟩
  let dash_direction : Vec2 :=
    if 0 < dir0.length_squared then dir0.normalize else p.dash_direction
  let vel : Vec2 :=
    if p.dash_timer.active then dash_direction * (780 : ℝ)
    else p.vel.lerp (direction * p.base_speed) (clamp (dt * 10) 0 1)
  if keys.dash_pressed = true ∧ ¬p.dash_timer.active ∧ ¬p.dash_cooldown.active then
    let dash_direction2 : Vec2 :=
      if dash_direction.length_squared = 0 then ⟨1, 0⟩ else dash_direction
    { p with
      vel := vel
      dash_direction := dash_direction2
      dash_timer := Timer.start 0.12
      dash_cooldown := Timer.start 1
      invuln_timer := Timer.start 0.18 }
  else
    { p with vel := vel, dash_direction := dash_direction }

/-- Models `Player.update(dt)` (src/main.py lines 152-161): advance the three
timers, integrate the position, clamp it into the arena. -/
noncomputable def Player.update (p : Player) (dt : ℝ) : Player :=
  let moved : Vec2 := p.pos + p.vel * dt
  { p with
    dash_timer := p.dash_timer.update dt
    dash_cooldown := p.dash_cooldown.update dt
    invuln_timer := p.invuln_timer.update dt
    pos := ⟨clamp moved.x p.radius (WIDTH - p.radius),
            clamp moved.y p.radius (HEIGHT - p.radius)⟩ }

/-- Models `Player.can_be_hit()` (src/main.py lines 163-164). -/
def Player.can_be_hit (p : Player) : Prop := ¬p.invuln_timer.active

noncomputable instance (p : Player) : Decidable p.can_be_hit :=
  inferInstanceAs (Decidable ¬p.invuln_timer.active)

/-- Enemy state (src/main.py lines 190-218).  The randomized constructor
is modelled by the `Oracle` supplying already-built enemies. -/
structure Enemy where
  pos : Vec2
  direction : Vec2
  radius : ℝ
  speed : ℝ
  spin : ℝ
  angle : ℝ
  color : ℕ × ℕ × ℕ

/-- Models `Enemy.update(dt)` (src/main.py lines 220-237): integrate position and
angle, then clamp-and-reflect on each axis (`if`/`elif` per axis). -/
noncomputable def Enemy.update (e : Enemy) (dt : ℝ) : Enemy :=
  let m : Vec2 := e.pos + e.direction * e.speed * dt
  let px : ℝ := if m.x < e.radius then e.radius
    else if WIDTH - e.radius < m.x then WIDTH - e.radius else m.x
  let dx : ℝ := if m.x < e.radius then -e.direction.x
    else if WIDTH - e.radius < m.x then -e.direction.x else e.direction.x
  let py : ℝ := if m.y < e.radius then e.radius
    else if HEIGHT - e.radius < m.y then HEIGHT - e.radius else m.y
  let dy : ℝ := if m.y < e.radius then -e.direction.y
    else if HEIGHT - e.radius < m.y then -e.direction.y else e.direction.y
  { e with pos := ⟨px, py⟩, direction := ⟨dx, dy⟩, angle := e.angle + e.spin * dt }

/-- Models `Enemy.collides_with_player(player)` (src/main.py lines 257-260):
squared distance against squared summed radii. -/
def Enemy.collides_with_player (e : Enemy) (p : Player) : Prop :=
  (e.pos - p.pos).length_squared ≤ (e.radius + p.radius) * (e.radius + p.radius)

noncomputable instance (e : Enemy) (p : Player) : Decidable (e.collides_with_player p) :=
  inferInstanceAs
    (Decidable ((e.pos - p.pos).length_squared ≤ (e.radius + p.radius) * (e.radius + p.radius)))

/-- Energy orb (src/main.py lines 263-273): randomized position supplied
by the `Oracle`; `radius = 10`, `value = 25` at construction. -/
structure EnergyOrb where
  pos : Vec2
  radius : ℝ
  pulse_phase : ℝ
  value : ℤ

/-- Models `EnergyOrb.update(dt)` (src/main.py lines 275-276). -/
def EnergyOrb.update (o : EnergyOrb) (dt : ℝ) : EnergyOrb :=
  { o with pulse_phase := o.pulse_phase + dt * 4.2 }

/-- Models `EnergyOrb.collides_with_player(player)` (src/main.py lines 290-293). -/
def EnergyOrb.collides_with_player (o : EnergyOrb) (p : Player) : Prop :=
  (o.pos - p.pos).length_squared ≤ (o.radius + p.radius) * (o.radius + p.radius)

noncomputable instance (o : EnergyOrb) (p : Player) : Decidable (o.collides_with_player p) :=
  inferInstanceAs
    (Decidable ((o.pos - p.pos).length_squared ≤ (o.radius + p.radius) * (o.radius + p.radius)))

/-- Screen state machine: `"menu" | "playing" | "paused" | "gameover"`
(src/main.py line 310). -/
inductive GState where
  | menu
  | playing
  | paused
  | gameover
  deriving DecidableEq

/-- Injected source of the values the process-wide RNG (and, for
`save_ok`, the file system) produces during one `update_playing` tick:
the freshly constructed `Enemy(...)` / `EnergyOrb()`, the sampled spawn
intervals, the randomized cosmetic particles of each `spawn_burst` /
trail emission, and whether the best-score write succeeds. -/
structure Oracle where
  new_enemy : Enemy
  spawn_jitter : ℝ
  new_orb : EnergyOrb
  orb_interval : ℝ
  level_burst : List Particle
  orb_burst : EnergyOrb → List Particle
  trail_particles : ℕ → List Particle
  death_burst : List Particle
  save_ok : Bool

/-- Game/run state (src/main.py lines 296-341).  `saves_attempted` is a
ghost log of the arguments of every `save_best_score` call. -/
structure Game where
  player : Player
  enemies : List Enemy
  orbs : List EnergyOrb
  particles : List Particle
  score : ℤ
  time_alive : ℝ
  combo : ℤ
  combo_timer : Timer
  spawn_enemy_timer : Timer
  spawn_orb_timer : Timer
  difficulty_level : ℤ
  next_difficulty_time : ℝ
  best_score : ℤ
  state : GState
  shake_time : ℝ
  shake_strength : ℝ
  grid_offset : ℝ
  file : SaveFile
  saves_attempted : List ℤ

/-- Models `Game.add_shake(strength, duration)` (src/main.py lines 343-345). -/
noncomputable def Game.add_shake (g : Game) (strength duration : ℝ) : Game :=
  { g with
    shake_strength := max g.shake_strength strength
    shake_time := max g.shake_time duration }

/-- Models `Game.spawn_burst(...)` (src/main.py lines 347-361): appends `count`
particles with randomized velocity/life/radius; the concrete particles
are supplied by the `Oracle`. -/
def Game.spawn_burst (g : Game) (ps : List Particle) : Game :=
  { g with particles := g.particles ++ ps }

/-- The enemy-collision loop of `Game.update_playing`
(src/main.py lines 437-454): iterate over the enemy list; a hit while
the player `can_be_hit()` kills the player, bursts, shakes, switches to
`gameover`, raises `best_score`, calls `save_best_score` and `break`s;
a hit while invulnerable repels the enemy (direction away from the
player when the offset is nonzero, speed scaled by 0.92) and awards +2
score.  Returns the (in-place mutated) enemy list and the game state. -/
noncomputable def Game.enemy_collision_loop (o : Oracle) :
    List Enemy → Game → List Enemy × Game
  | [], g => ([], g)
  | e :: rest, g =>
    if e.collides_with_player g.player then
      if g.player.can_be_hit then
        let best : ℤ := max g.best_score g.score
        (e :: rest,
          { g with
            player := { g.player with alive := false }
            particles := g.particles ++ o.death_burst
            shake_strength := max g.shake_strength 10
            shake_time := max g.shake_time 0.25
            state := GState.gameover
            best_score := best
            file := save_best_score o.save_ok best g.file
            saves_attempted := g.saves_attempted ++ [best] })
      else
        let push : Vec2 := e.pos - g.player.pos
        let e2 : Enemy :=
          { e with
            direction := if 0 < push.length_squared then push.normalize else e.direction
            speed := e.speed * 0.92 }
        let r := Game.enemy_collision_loop o rest { g with score := g.score + 2 }
        (e2 :: r.1, r.2)
    else
      let r := Game.enemy_collision_loop o rest g
      (e :: r.1, r.2)

/-- The orb-pickup loop of `Game.update_playing`
(src/main.py lines 419-429): for each orb overlapping the player,
increment the combo, restart the combo timer at 2.0 s, award
`orb.value + (combo - 1) * 5` with the post-increment combo, burst and
shake.  The list of picked orbs is realized by the caller's filter. -/
noncomputable def Game.orb_pickup_loop (o : Oracle) :
    List EnergyOrb → Game → Game
  | [], g => g
  | orb :: rest, g =>
    if orb.collides_with_player g.player then
      let combo2 : ℤ := g.combo + 1
      let combo_bonus : ℤ := (combo2 - 1) * 5
      Game.orb_pickup_loop o rest
        { g with
          combo := combo2
          combo_timer := Timer.start 2
          score := g.score + orb.value + combo_bonus
          particles := g.particles ++ o.orb_burst orb
          shake_strength := max g.shake_strength 4
          shake_time := max g.shake_time 0.08 }
    else Game.orb_pickup_loop o rest g

/-- Orb pickup stage (src/main.py lines 418-432): run the pickup loop
over the current orbs, then remove the picked (= overlapping) orbs.
(The source's `if picked:` guard only skips a no-op reassignment.) -/
noncomputable def Game.orb_pickup_stage (o : Oracle) (g : Game) : Game :=
  let g1 := Game.orb_pickup_loop o g.orbs g
  { g1 with
    orbs := g.orbs.filter fun orb => !decide (orb.collides_with_player g.player) }

/-- Survival-clock stage of `update_playing` (src/main.py lines 364-365). -/
noncomputable def Game.clock_stage (dt : ℝ) (g : Game) : Game :=
  { g with
    time_alive := g.time_alive + dt
    grid_offset := g.grid_offset + 18 * dt }

/-- Difficulty stage (src/main.py lines 368-372): every time the survival
clock reaches the next 10-second threshold, raise the level, push the
threshold, award +20 score and emit a cosmetic burst. -/
noncomputable def Game.difficulty_stage (o : Oracle) (g : Game) : Game :=
  if g.next_difficulty_time ≤ g.time_alive then
    ({ g with
      difficulty_level := g.difficulty_level + 1
      next_difficulty_time := g.next_difficulty_time + 10
      score := g.score + 20 }).spawn_burst o.level_burst
  else g

/-- Combo-timer stage (src/main.py lines 374-376): advance the combo
timer and zero the combo when it has expired. -/
noncomputable def Game.combo_stage (dt : ℝ) (g : Game) : Game :=
  let g1 := { g with combo_timer := g.combo_timer.update dt }
  if ¬g1.combo_timer.active then { g1 with combo := 0 } else g1

/-- Player stage (src/main.py lines 378-379): input handling then
movement. -/
noncomputable def Game.player_stage (keys : Keys) (dt : ℝ) (g : Game) : Game :=
  { g with player := (g.player.handle_input keys dt).update dt }

/-- Spawn-timer stage (src/main.py lines 381-382). -/
noncomputable def Game.spawn_timers_stage (dt : ℝ) (g : Game) : Game :=
  { g with
    spawn_enemy_timer := g.spawn_enemy_timer.update dt
    spawn_orb_timer := g.spawn_orb_timer.update dt }

/-- Enemy-spawn stage (src/main.py lines 385-390): when the spawn timer
has expired, append one new enemy and re-arm the timer with
`max(0.28, 1.0 - difficulty_level * 0.045 + uniform(-0.08, 0.12))`. -/
noncomputable def Game.enemy_spawn_stage (o : Oracle) (g : Game) : Game :=
  if ¬g.spawn_enemy_timer.active then
    { g with
      enemies := g.enemies ++ [o.new_enemy]
      spawn_enemy_timer :=
        Timer.start (max 0.28 (1 - (g.difficulty_level : ℝ) * 0.045 + o.spawn_jitter)) }
  else g

/-- Orb-spawn stage (src/main.py lines 393-395): at most 3 orbs live. -/
noncomputable def Game.orb_spawn_stage (o : Oracle) (g : Game) : Game :=
  if ¬g.spawn_orb_timer.active ∧ g.orbs.length < 3 then
    { g with
      orbs := g.orbs ++ [o.new_orb]
      spawn_orb_timer := Timer.start o.orb_interval }
  else g

/-- Entity-update stage (src/main.py lines 397-405): move every enemy,
orb and particle, then drop dead particles. -/
noncomputable def Game.entity_update_stage (dt : ℝ) (g : Game) : Game :=
  { g with
    enemies := g.enemies.map (fun e => Enemy.update e dt)
    orbs := g.orbs.map (fun orb => EnergyOrb.update orb dt)
    particles :=
      (g.particles.map (fun p => Particle.update p dt)).filter
        (fun p => decide ((0 : ℝ) < p.life)) }

/-- Trail-emission stage (src/main.py lines 407-416).  The source’s
`while trail_accum >= 0.018` loop is modelled in closed form: it runs
`⌊trail_accum / 0.018⌋` times, leaving
`trail_accum - 0.018 * ⌊trail_accum / 0.018⌋`. -/
noncomputable def Game.trail_stage (dt : ℝ) (o : Oracle) (g : Game) : Game :=
  if (250 : ℝ) < g.player.vel.length then
    let accum : ℝ := g.player.trail_accum + dt
    let k : ℕ := ⌊accum / 0.018⌋₊
    { g with
      player := { g.player with trail_accum := accum - 0.018 * k }
      particles := g.particles ++ o.trail_particles k }
  else g

/-- Passive-scoring stage (src/main.py lines 434-435):
`score += int(dt * 6)`. -/
noncomputable def Game.passive_score_stage (dt : ℝ) (g : Game) : Game :=
  { g with score := g.score + pyInt (dt * 6) }

/-- Enemy-collision stage (src/main.py lines 437-454): run the collision
loop over the current enemies and store the mutated list back. -/
noncomputable def Game.collision_stage (o : Oracle) (g : Game) : Game :=
  let r := Game.enemy_collision_loop o g.enemies g
  { r.2 with enemies := r.1 }

/-- Models `Game.update_playing(dt)` up to and including the enemy-collision
loop (src/main.py lines 363-454), with the randomized values supplied by
the `Oracle`: the stage functions above composed in source order. -/
noncomputable def Game.update_playing_pre_cap (g : Game) (keys : Keys) (dt : ℝ)
    (o : Oracle) : Game :=
  Game.collision_stage o
    (Game.passive_score_stage dt
      (Game.orb_pickup_stage o
        (Game.trail_stage dt o
          (Game.entity_update_stage dt
            (Game.orb_spawn_stage o
              (Game.enemy_spawn_stage o
                (Game.spawn_timers_stage dt
                  (Game.player_stage keys dt
                    (Game.combo_stage dt
                      (Game.difficulty_stage o
                        (Game.clock_stage dt g)))))))))))

/-- Enemy-cap stage (src/main.py lines 456-458):
`if len(enemies) > 70: enemies = enemies[-70:]`. -/
noncomputable def Game.cap_stage (g : Game) : Game :=
  if 70 < g.enemies.length then
    { g with enemies := g.enemies.drop (g.enemies.length - 70) }
  else g

/-- Camera-shake decay stage (src/main.py lines 460-464). -/
noncomputable def Game.shake_stage (dt : ℝ) (g : Game) : Game :=
  if 0 < g.shake_time then
    let st : ℝ := max 0 (g.shake_time - dt)
    if st = 0 then { g with shake_time := st, shake_strength := 0 }
    else { g with shake_time := st }
  else g

/-- Models `Game.update_playing(dt)` in full (src/main.py lines 363-464): the
pre-cap pipeline, then the live-enemy cap, then the camera-shake decay. -/
noncomputable def Game.update_playing (g : Game) (keys : Keys) (dt : ℝ)
    (o : Oracle) : Game :=
  Game.shake_stage dt (Game.cap_stage (g.update_playing_pre_cap keys dt o))

/-! ## Verified claims -/

/-- Claim C3: for every real `s` and every `dt ≥ 0`, `Timer.start s`
followed by `Timer.update dt` leaves `time_left = max 0 (s - dt)`, and
`active` holds exactly when `time_left > 0` (a pure query). -/
theorem claim_C3_timer (s dt : ℝ) (h : 0 ≤ dt) :
    ((Timer.start s).update dt).time_left = max 0 (s - dt) ∧
      ∀ t : Timer, t.active ↔ 0 < t.time_left := by
  refine ⟨?_, fun t => Iff.rfl⟩
  simp only [Timer.start, Timer.update]
  rcases le_total 0 s with hs | hs
  · rw [max_eq_right hs]
  · rw [max_eq_left hs, zero_sub, max_eq_left (by linarith), max_eq_left (by linarith)]

/-- Concrete instance of `claim_C3_timer` at `s = 3`, `dt = 1`. -/
theorem claim_C3_timer_witness :
    (0 : ℝ) ≤ 1 ∧
      (((Timer.start 3).update 1).time_left = max 0 (3 - 1) ∧
        ∀ t : Timer, t.active ↔ 0 < t.time_left) :=
  ⟨by norm_num, claim_C3_timer 3 1 (by norm_num)⟩

/-- Claim C10: for every delta-time the main loop can produce — it clamps
`dt_ms / 1000` into `[0, 0.05]` (src/main.py line 660) — the passive
scoring step `score += int(dt * 6)` (line 435) adds exactly 0. -/
theorem claim_C10_passive_score (dtms dt : ℝ) (hdt : dt = clamp (dtms / 1000) 0 0.05) :
    pyInt (dt * 6) = 0 ∧ 0 ≤ dt ∧ dt ≤ 0.05 := by
  have h0 : 0 ≤ dt := by rw [hdt]; exact le_max_left _ _
  have h1 : dt ≤ 0.05 := by
    rw [hdt]; exact max_le (by norm_num) (min_le_left _ _)
  refine ⟨?_, h0, h1⟩
  have h6 : (0 : ℝ) ≤ dt * 6 := by nlinarith
  rw [pyInt, if_pos h6, Int.floor_eq_zero_iff]
  exact Set.mem_Ico.mpr ⟨h6, by nlinarith⟩

/-- Concrete instance of `claim_C10_passive_score` at a 16 ms frame. -/
theorem claim_C10_passive_score_witness :
    pyInt (clamp ((16 : ℝ) / 1000) 0 0.05 * 6) = 0 ∧
      (0 : ℝ) ≤ clamp ((16 : ℝ) / 1000) 0 0.05 ∧
      clamp ((16 : ℝ) / 1000) 0 0.05 ≤ 0.05 :=
  claim_C10_passive_score 16 _ rfl

/-- The enemy-collision loop's result does not depend on whether the
best-score write succeeds, except for the file itself. -/
theorem enemy_collision_loop_save_independent (o : Oracle) (b : Bool) :
    ∀ (l : List Enemy) (g : Game),
      (Game.enemy_collision_loop o l g).1 =
          (Game.enemy_collision_loop { o with save_ok := b } l g).1 ∧
        (Game.enemy_collision_loop o l g).2 =
          { (Game.enemy_collision_loop { o with save_ok := b } l g).2 with
            file := (Game.enemy_collision_loop o l g).2.file }
  | [], g => ⟨rfl, rfl⟩
  | e :: rest, g => by
    rw [Game.enemy_collision_loop, Game.enemy_collision_loop]
    split_ifs with hc hh
    · exact ⟨rfl, rfl⟩
    · have ih := enemy_collision_loop_save_independent o b rest { g with score := g.score + 2 }
      refine ⟨?_, ?_⟩
      · dsimp only; rw [ih.1]
      · dsimp only; rw [ih.2]
    · have ih := enemy_collision_loop_save_independent o b rest g
      refine ⟨?_, ?_⟩
      · dsimp only; rw [ih.1]
      · dsimp only; rw [ih.2]

/-- Claim C9: best-score persistence is total and non-disruptive.
Loading yields 0 on an absent or unparsable file (startup never fails),
and the outcome of the save (`save_ok`) influences nothing in the run
state — enemy list, score, best score, game state, player, combo and
even the log of attempted saves are identical whether the write
succeeds or throws (the exception is swallowed). -/
theorem claim_C9_persistence (o : Oracle) (b : Bool) (l : List Enemy) (g : Game) :
    load_best_score SaveFile.absent = 0 ∧
      load_best_score SaveFile.unparsable = 0 ∧
      (∀ n : ℤ, load_best_score (SaveFile.valid n) = n) ∧
      (Game.enemy_collision_loop o l g).1 =
        (Game.enemy_collision_loop { o with save_ok := b } l g).1 ∧
      (Game.enemy_collision_loop o l g).2.score =
        (Game.enemy_collision_loop { o with save_ok := b } l g).2.score ∧
      (Game.enemy_collision_loop o l g).2.best_score =
        (Game.enemy_collision_loop { o with save_ok := b } l g).2.best_score ∧
      (Game.enemy_collision_loop o l g).2.state =
        (Game.enemy_collision_loop { o with save_ok := b } l g).2.state ∧
      (Game.enemy_collision_loop o l g).2.player =
        (Game.enemy_collision_loop { o with save_ok := b } l g).2.player ∧
      (Game.enemy_collision_loop o l g).2.saves_attempted =
        (Game.enemy_collision_loop { o with save_ok := b } l g).2.saves_attempted := by
  obtain ⟨h1, h2⟩ := enemy_collision_loop_save_independent o b l g
  exact ⟨rfl, rfl, fun n => rfl, h1, by rw [h2], by rw [h2], by rw [h2], by rw [h2],
    by rw [h2]⟩

/-- Claim C8: for every pre-update position and velocity and every `dt`,
after `Player.update` the player's position lies inside
`[radius, WIDTH - radius] × [radius, HEIGHT - radius]` (the run's player
has `radius = 16`). -/
theorem claim_C8_player_bounds (p : Player) (dt : ℝ) (hr : p.radius = 16) :
    p.radius ≤ (p.update dt).pos.x ∧ (p.update dt).pos.x ≤ WIDTH - p.radius ∧
      p.radius ≤ (p.update dt).pos.y ∧ (p.update dt).pos.y ≤ HEIGHT - p.radius := by
  unfold Player.update clamp
  refine ⟨le_max_left _ _, max_le ?_ (min_le_left _ _),
    le_max_left _ _, max_le ?_ (min_le_left _ _)⟩
  · rw [hr]; norm_num [WIDTH]
  · rw [hr]; norm_num [HEIGHT]

/-- Concrete instance of `claim_C8_player_bounds` for the initial player. -/
theorem claim_C8_player_bounds_witness :
    Player.init.radius = 16 ∧
      (Player.init.radius ≤ (Player.init.update 2).pos.x ∧
        (Player.init.update 2).pos.x ≤ WIDTH - Player.init.radius ∧
        Player.init.radius ≤ (Player.init.update 2).pos.y ∧
        (Player.init.update 2).pos.y ≤ HEIGHT - Player.init.radius) :=
  ⟨rfl, claim_C8_player_bounds Player.init 2 rfl⟩

/-- Claim C7: `Enemy.update` moves the enemy, then clamps each coordinate
to the violated boundary of `[radius, WIDTH - radius]`
(resp. `[radius, HEIGHT - radius]`), negating that axis's direction
component, and a bounce never changes the Euclidean magnitude of the
direction vector. -/
theorem claim_C7_enemy_bounce (e : Enemy) (dt : ℝ) :
    ((e.update dt).pos.x =
        (if (e.pos + e.direction * e.speed * dt).x < e.radius then e.radius
         else if WIDTH - e.radius < (e.pos + e.direction * e.speed * dt).x then
           WIDTH - e.radius
         else (e.pos + e.direction * e.speed * dt).x)) ∧
      ((e.update dt).direction.x =
        (if (e.pos + e.direction * e.speed * dt).x < e.radius ∨
            WIDTH - e.radius < (e.pos + e.direction * e.speed * dt).x then
          -e.direction.x
         else e.direction.x)) ∧
      ((e.update dt).pos.y =
        (if (e.pos + e.direction * e.speed * dt).y < e.radius then e.radius
         else if HEIGHT - e.radius < (e.pos + e.direction * e.speed * dt).y then
           HEIGHT - e.radius
         else (e.pos + e.direction * e.speed * dt).y)) ∧
      ((e.update dt).direction.y =
        (if (e.pos + e.direction * e.speed * dt).y < e.radius ∨
            HEIGHT - e.radius < (e.pos + e.direction * e.speed * dt).y then
          -e.direction.y
         else e.direction.y)) ∧
      (e.update dt).direction.length = e.direction.length := by
  unfold Enemy.update Vec2.length Vec2.length_squared
  dsimp only
  refine ⟨?_, ?_, ?_, ?_, ?_⟩
  · split_ifs <;> rfl
  · split_ifs <;> first | rfl | tauto
  · split_ifs <;> rfl
  · split_ifs <;> first | rfl | tauto
  · split_ifs <;> first | rfl | (congr 1; ring)

/-- The camera-shake decay never touches the enemy list. -/
theorem Game.shake_stage_enemies (dt : ℝ) (g : Game) :
    (Game.shake_stage dt g).enemies = g.enemies := by
  unfold Game.shake_stage
  dsimp only
  split_ifs <;> rfl

/-- Claim C4: after every `update_playing` step the live enemy list has
at most 70 entries, and whenever the pre-cap pipeline produced more, the
retained enemies are exactly the 70 most recently appended (oldest
dropped first). -/
theorem claim_C4_enemy_cap (g : Game) (keys : Keys) (dt : ℝ) (o : Oracle) :
    (g.update_playing keys dt o).enemies.length ≤ 70 ∧
      (g.update_playing keys dt o).enemies =
        (if 70 < (g.update_playing_pre_cap keys dt o).enemies.length then
          (g.update_playing_pre_cap keys dt o).enemies.drop
            ((g.update_playing_pre_cap keys dt o).enemies.length - 70)
         else (g.update_playing_pre_cap keys dt o).enemies) := by
  unfold Game.update_playing
  rw [Game.shake_stage_enemies]
  unfold Game.cap_stage
  split_ifs <;> simp [List.length_drop] <;> omega

/-- Folding `Timer.update` over a list of frame deltas loses at most the
sum of the deltas. -/
theorem timer_foldl_time_left (ds : List ℝ) :
    ∀ t : Timer, t.time_left - ds.sum ≤ (ds.foldl Timer.update t).time_left := by
  induction ds with
  | nil => intro t; simp
  | cons d ds ih =>
    intro t
    have h1 : (t.update d).time_left - ds.sum ≤ ((d :: ds).foldl Timer.update t).time_left := by
      simpa using ih (t.update d)
    have h2 : t.time_left - d ≤ (t.update d).time_left := le_max_right _ _
    have h3 : (d :: ds).sum = d + ds.sum := by simp
    linarith

/-- Claim C5: holding the dash key while neither the dash timer nor the
dash cooldown is active starts, immediately after `handle_input`, the
dash timer at 0.12 s, the cooldown at 1.0 s and the invulnerability
timer at 0.18 s (all active); `handle_input` never touches the dash
timer while the cooldown is active, and the cooldown stays active under
any sequence of nonnegative frame deltas summing to less than 1.0 s —
so no re-trigger is possible until the cooldown elapses. -/
theorem claim_C5_dash_trigger (p : Player) (keys : Keys) (dt : ℝ)
    (hd : keys.dash_pressed = true) (ht : ¬p.dash_timer.active)
    (hc : ¬p.dash_cooldown.active) :
    (p.handle_input keys dt).dash_timer.time_left = 0.12 ∧
      (p.handle_input keys dt).dash_cooldown.time_left = 1 ∧
      (p.handle_input keys dt).invuln_timer.time_left = 0.18 ∧
      (p.handle_input keys dt).dash_timer.active ∧
      (p.handle_input keys dt).dash_cooldown.active ∧
      (p.handle_input keys dt).invuln_timer.active ∧
      (∀ (keys2 : Keys) (dt2 : ℝ) (q : Player), q.dash_cooldown.active →
        (q.handle_input keys2 dt2).dash_timer = q.dash_timer) ∧
      (∀ ds : List ℝ, ds.sum < 1 →
        (ds.foldl Timer.update (p.handle_input keys dt).dash_cooldown).active) := by
  have hstep : (p.handle_input keys dt).dash_timer = Timer.start 0.12 ∧
      (p.handle_input keys dt).dash_cooldown = Timer.start 1 ∧
      (p.handle_input keys dt).invuln_timer = Timer.start 0.18 := by
    unfold Player.handle_input
    dsimp only
    rw [if_pos ⟨hd, ht, hc⟩]
    exact ⟨rfl, rfl, rfl⟩
  obtain ⟨h1, h2, h3⟩ := hstep
  refine ⟨?_, ?_, ?_, ?_, ?_, ?_, ?_, ?_⟩
  · rw [h1]; simp [Timer.start]; norm_num
  · rw [h2]; simp [Timer.start]
  · rw [h3]; simp [Timer.start]; norm_num
  · rw [h1]; simp [Timer.start, Timer.active]; norm_num
  · rw [h2]; simp [Timer.start, Timer.active]
  · rw [h3]; simp [Timer.start, Timer.active]; norm_num
  · intro keys2 dt2 q hq
    unfold Player.handle_input
    dsimp only
    rw [if_neg fun h => h.2.2 hq]
  · intro ds hsum
    have hfold := timer_foldl_time_left ds (p.handle_input keys dt).dash_cooldown
    rw [h2] at hfold
    have hone : (Timer.start 1).time_left = 1 := by simp [Timer.start]
    rw [hone] at hfold
    have : (0 : ℝ) < (ds.foldl Timer.update (p.handle_input keys dt).dash_cooldown).time_left := by
      rw [h2]; linarith
    exact this

/-- All-false keyboard snapshot except the space bar. -/
def dashKeys : Keys :=
  { a := false, d := false, w := false, s := false, left := false, right := false,
    up := false, down := false, space := true, lshift := false, rshift := false }

/-- Concrete instance of `claim_C5_dash_trigger`: the initial player with
space held. -/
theorem claim_C5_dash_trigger_witness :
    dashKeys.dash_pressed = true ∧ ¬Player.init.dash_timer.active ∧
      ¬Player.init.dash_cooldown.active ∧
      (Player.init.handle_input dashKeys 0.016).dash_timer.time_left = 0.12 ∧
      (Player.init.handle_input dashKeys 0.016).dash_cooldown.active := by
  have ht : ¬Player.init.dash_timer.active := by
    simp [Player.init, Timer.active]
  have hc : ¬Player.init.dash_cooldown.active := by
    simp [Player.init, Timer.active]
  have happ := claim_C5_dash_trigger Player.init dashKeys 0.016 rfl ht hc
  exact ⟨rfl, ht, hc, happ.1, happ.2.2.2.2.1⟩

/-- Spec-side award schedule (§4.5 step 8 of the spec): collecting the
orbs of the list in order, starting from combo `c`, awards
`orb.value + (combo - 1) * 5` for each, where `combo` is the
post-increment streak value. -/
def orb_award : ℤ → List EnergyOrb → ℤ
  | _, [] => 0
  | c, orb :: rest => (orb.value + ((c + 1) - 1) * 5) + orb_award (c + 1) rest

/-- Characterization of the orb-pickup loop: combo increments by exactly
one per overlapping orb, the timer restarts at 2.0 s whenever anything
was picked, the score follows `orb_award`, and the player and the
collections are untouched. -/
theorem orb_pickup_loop_spec (o : Oracle) :
    ∀ (l : List EnergyOrb) (g : Game),
      (Game.orb_pickup_loop o l g).combo =
          g.combo + (l.countP fun orb => decide (orb.collides_with_player g.player)) ∧
        (Game.orb_pickup_loop o l g).score =
          g.score +
            orb_award g.combo
              (l.filter fun orb => decide (orb.collides_with_player g.player)) ∧
        (Game.orb_pickup_loop o l g).combo_timer =
          (if (l.countP fun orb => decide (orb.collides_with_player g.player)) = 0 then
            g.combo_timer
           else Timer.start 2) ∧
        (Game.orb_pickup_loop o l g).player = g.player ∧
        (Game.orb_pickup_loop o l g).orbs = g.orbs ∧
        (Game.orb_pickup_loop o l g).enemies = g.enemies ∧
        (Game.orb_pickup_loop o l g).state = g.state
  | [], g => by simp [Game.orb_pickup_loop, orb_award]
  | orb :: rest, g => by
    rw [Game.orb_pickup_loop]
    by_cases hc : orb.collides_with_player g.player
    · rw [if_pos hc]
      dsimp only
      obtain ⟨ih1, ih2, ih3, ih4, ih5, ih6, ih7⟩ := orb_pickup_loop_spec o rest
        { g with
          combo := g.combo + 1
          combo_timer := Timer.start 2
          score := g.score + orb.value + (g.combo + 1 - 1) * 5
          particles := g.particles ++ o.orb_burst orb
          shake_strength := max g.shake_strength 4
          shake_time := max g.shake_time 0.08 }
      dsimp only at ih1 ih2 ih3 ih4 ih5 ih6 ih7
      have hcnt : ((orb :: rest).countP fun x => decide (x.collides_with_player g.player)) =
          (rest.countP fun x => decide (x.collides_with_player g.player)) + 1 :=
        List.countP_cons_of_pos _ _ (by simpa using hc)
      have hfil : ((orb :: rest).filter fun x => decide (x.collides_with_player g.player)) =
          orb :: (rest.filter fun x => decide (x.collides_with_player g.player)) :=
        List.filter_cons_of_pos (by simpa using hc)
      refine ⟨?_, ?_, ?_, ?_, ?_, ?_, ?_⟩
      · rw [ih1, hcnt]; push_cast; ring
      · rw [ih2, hfil, orb_award]; ring
      · rw [ih3, hcnt]
        have hne : (rest.countP fun x => decide (x.collides_with_player g.player)) + 1 ≠ 0 := by
          omega
        rw [if_neg hne]
        split_ifs <;> rfl
      · exact ih4
      · exact ih5
      · exact ih6
      · exact ih7
    · rw [if_neg hc]
      obtain ⟨ih1, ih2, ih3, ih4, ih5, ih6, ih7⟩ := orb_pickup_loop_spec o rest g
      have hcnt : ((orb :: rest).countP fun x => decide (x.collides_with_player g.player)) =
          (rest.countP fun x => decide (x.collides_with_player g.player)) :=
        List.countP_cons_of_neg _ _ (by simpa using hc)
      have hfil : ((orb :: rest).filter fun x => decide (x.collides_with_player g.player)) =
          (rest.filter fun x => decide (x.collides_with_player g.player)) :=
        List.filter_cons_of_neg (by simpa using hc)
      exact ⟨by rw [ih1, hcnt], by rw [ih2, hfil], by rw [ih3, hcnt], ih4, ih5, ih6, ih7⟩

/-- Claim C6: each orb is collected at most once — every orb overlapping
the player this frame is removed from the collection (none remains
overlapping), the combo counter increments by exactly one per pickup,
the combo timer restarts at 2.0 s when anything was picked, and the
score grows by `orb.value + (combo - 1) * 5` per pickup with the
post-increment combo (`orb_award`). -/
theorem claim_C6_orb_pickup (o : Oracle) (g : Game) :
    (g.orb_pickup_stage o).orbs =
        (g.orbs.filter fun orb => !decide (orb.collides_with_player g.player)) ∧
      (∀ orb ∈ (g.orb_pickup_stage o).orbs, ¬orb.collides_with_player g.player) ∧
      (g.orb_pickup_stage o).combo =
        g.combo + (g.orbs.countP fun orb => decide (orb.collides_with_player g.player)) ∧
      (g.orb_pickup_stage o).combo_timer =
        (if (g.orbs.countP fun orb => decide (orb.collides_with_player g.player)) = 0 then
          g.combo_timer
         else Timer.start 2) ∧
      (g.orb_pickup_stage o).score =
        g.score +
          orb_award g.combo
            (g.orbs.filter fun orb => decide (orb.collides_with_player g.player)) := by
  obtain ⟨h1, h2, h3, h4, h5, h6, h7⟩ := orb_pickup_loop_spec o g.orbs g
  unfold Game.orb_pickup_stage
  refine ⟨rfl, ?_, h1, h3, h2⟩
  intro orb hmem
  have h := (List.mem_filter.mp hmem).2
  simp only [Bool.not_eq_true'] at h
  exact of_decide_eq_false h

/-- Claim C1 (amended): while `can_be_hit()` holds, the first enemy in
collection order that overlaps the player ends the run — the player dies,
the state becomes `gameover`, `best_score` becomes
`max best_score score`, persistence is attempted unconditionally (its
argument is logged even when the score is not a new high), the score is
untouched and no further enemy is processed: the enemy list is returned
exactly as it was. -/
theorem claim_C1_lethal_hit (o : Oracle) (g : Game) (l1 l2 : List Enemy) (e : Enemy)
    (hhit : g.player.can_be_hit)
    (h1 : ∀ a ∈ l1, ¬a.collides_with_player g.player)
    (hce : e.collides_with_player g.player) :
    (Game.enemy_collision_loop o (l1 ++ e :: l2) g).1 = l1 ++ e :: l2 ∧
      (Game.enemy_collision_loop o (l1 ++ e :: l2) g).2.player.alive = false ∧
      (Game.enemy_collision_loop o (l1 ++ e :: l2) g).2.state = GState.gameover ∧
      (Game.enemy_collision_loop o (l1 ++ e :: l2) g).2.best_score =
        max g.best_score g.score ∧
      (Game.enemy_collision_loop o (l1 ++ e :: l2) g).2.saves_attempted =
        g.saves_attempted ++ [max g.best_score g.score] ∧
      (Game.enemy_collision_loop o (l1 ++ e :: l2) g).2.score = g.score := by
  revert h1
  induction l1 with
  | nil =>
    intro h1
    simp only [List.nil_append]
    rw [Game.enemy_collision_loop, if_pos hce, if_pos hhit]
    exact ⟨rfl, rfl, rfl, rfl, rfl, rfl⟩
  | cons a t ih =>
    intro h1
    have hna : ¬a.collides_with_player g.player := h1 a (List.mem_cons_self a t)
    have iht := ih fun x hx => h1 x (List.mem_cons_of_mem a hx)
    simp only [List.cons_append]
    rw [Game.enemy_collision_loop, if_neg hna]
    dsimp only
    exact ⟨by rw [iht.1], iht.2.1, iht.2.2.1, iht.2.2.2.1, iht.2.2.2.2.1, iht.2.2.2.2.2⟩

/-- A lethal enemy sitting exactly on the initial player's position. -/
noncomputable def cexEnemyC1 : Enemy :=
  { pos := ⟨WIDTH / 2, HEIGHT / 2⟩, direction := ⟨1, 0⟩, radius := 12, speed := 150,
    spin := 0, angle := 0, color := (255, 90, 120) }

/-- A run whose score (10) is below the stored best score (50), with a
hittable player and the colliding enemy `cexEnemyC1`. -/
noncomputable def cexGameC1 : Game :=
  { player := Player.init
    enemies := [cexEnemyC1]
    orbs := []
    particles := []
    score := 10
    time_alive := 0
    combo := 0
    combo_timer := ⟨0⟩
    spawn_enemy_timer := ⟨0.6⟩
    spawn_orb_timer := ⟨2.2⟩
    difficulty_level := 1
    next_difficulty_time := 10
    best_score := 50
    state := GState.playing
    shake_time := 0
    shake_strength := 0
    grid_offset := 0
    file := SaveFile.valid 50
    saves_attempted := [] }

/-- A deterministic stand-in for the RNG values of one tick. -/
noncomputable def cexOracle : Oracle :=
  { new_enemy := cexEnemyC1
    spawn_jitter := 0
    new_orb := { pos := ⟨100, 100⟩, radius := 10, pulse_phase := 0, value := 25 }
    orb_interval := 2
    level_burst := []
    orb_burst := fun _ => []
    trail_particles := fun _ => []
    death_burst := []
    save_ok := true }

/-- Concrete instance of `claim_C6_orb_pickup` on the run state
`cexGameC1`: the combo counter grows by exactly the number of orbs
overlapping the player. -/
theorem claim_C6_orb_pickup_witness :
    (cexGameC1.orb_pickup_stage cexOracle).combo =
      cexGameC1.combo +
        (cexGameC1.orbs.countP fun orb =>
          decide (orb.collides_with_player cexGameC1.player)) :=
  (claim_C6_orb_pickup cexOracle cexGameC1).2.2.1

/-- Counterexample to claim C1 as stated: on a lethal hit whose run score
(10) is NOT a new high (best is 50), the code still attempts best-score
persistence — `save_best_score` is called (the attempt log grows),
contradicting "persistence is attempted only if the run's score is a new
high". -/
theorem claim_C1_counterexample :
    cexGameC1.score < cexGameC1.best_score ∧
      cexGameC1.player.can_be_hit ∧
      cexEnemyC1.collides_with_player cexGameC1.player ∧
      cexGameC1.saves_attempted = [] ∧
      (Game.enemy_collision_loop cexOracle [cexEnemyC1] cexGameC1).2.saves_attempted =
        [50] := by
  have hhit : cexGameC1.player.can_be_hit := by
    simp [cexGameC1, Player.init, Player.can_be_hit, Timer.active]
  have hcol : cexEnemyC1.collides_with_player cexGameC1.player := by
    simp only [cexGameC1, cexEnemyC1, Player.init, Enemy.collides_with_player,
      Vec2.length_squared, Vec2.sub_x, Vec2.sub_y]
    norm_num
  refine ⟨by norm_num [cexGameC1], hhit, hcol, rfl, ?_⟩
  rw [Game.enemy_collision_loop, if_pos hcol, if_pos hhit]
  show cexGameC1.saves_attempted ++ [max cexGameC1.best_score cexGameC1.score] = [50]
  norm_num [cexGameC1]

/-- Concrete instance of `claim_C1_lethal_hit` on `cexGameC1`. -/
theorem claim_C1_lethal_hit_witness :
    cexGameC1.player.can_be_hit ∧
      cexEnemyC1.collides_with_player cexGameC1.player ∧
      (Game.enemy_collision_loop cexOracle ([] ++ cexEnemyC1 :: []) cexGameC1).2.state =
        GState.gameover ∧
      (Game.enemy_collision_loop cexOracle ([] ++ cexEnemyC1 :: []) cexGameC1).2.player.alive =
        false := by
  have hhit : cexGameC1.player.can_be_hit := by
    simp [cexGameC1, Player.init, Player.can_be_hit, Timer.active]
  have hcol : cexEnemyC1.collides_with_player cexGameC1.player := by
    simp only [cexGameC1, cexEnemyC1, Player.init, Enemy.collides_with_player,
      Vec2.length_squared, Vec2.sub_x, Vec2.sub_y]
    norm_num
  have happ := claim_C1_lethal_hit cexOracle cexGameC1 [] [] cexEnemyC1 hhit
    (by simp) hcol
  exact ⟨hhit, hcol, happ.2.2.1, happ.2.1⟩

/-- The per-enemy effect of the nonlethal (invulnerable) branch of the
enemy-collision loop (src/main.py lines 448-454): an overlapping enemy
is turned away from the player (when the offset is nonzero) and its
speed is multiplied by 0.92; other enemies are untouched. -/
noncomputable def pushed_if_hit (p : Player) (e : Enemy) : Enemy :=
  if e.collides_with_player p then
    { e with
      direction :=
        if 0 < (e.pos - p.pos).length_squared then (e.pos - p.pos).normalize
        else e.direction
      speed := e.speed * 0.92 }
  else e

/-- Claim C2 (amended): while the player is invulnerable, EVERY enemy
overlapping the player in the same frame is repelled: its direction is
set to the unit vector away from the player whenever the two positions
differ (left unchanged when they coincide), its speed is multiplied by
0.92 — an 8 % reduction, not 6 % — and the score grows by 2 per such
enemy; nothing lethal happens (state, player, best score, save log are
untouched). -/
theorem claim_C2_invuln_pushback (o : Oracle) :
    ∀ (l : List Enemy) (g : Game), ¬g.player.can_be_hit →
      (Game.enemy_collision_loop o l g).1 = l.map (pushed_if_hit g.player) ∧
        (Game.enemy_collision_loop o l g).2.score =
          g.score + 2 * (l.countP fun e => decide (e.collides_with_player g.player)) ∧
        (Game.enemy_collision_loop o l g).2.state = g.state ∧
        (Game.enemy_collision_loop o l g).2.player = g.player ∧
        (Game.enemy_collision_loop o l g).2.saves_attempted = g.saves_attempted ∧
        (Game.enemy_collision_loop o l g).2.best_score = g.best_score ∧
        (∀ e ∈ l, e.collides_with_player g.player →
          (pushed_if_hit g.player e).speed = 0.92 * e.speed ∧
            (0 < (e.pos - g.player.pos).length_squared →
              (pushed_if_hit g.player e).direction = (e.pos - g.player.pos).normalize))
  | [], g, hinv => by simp [Game.enemy_collision_loop]
  | e :: rest, g, hinv => by
    have hper : ∀ x ∈ e :: rest, x.collides_with_player g.player →
        (pushed_if_hit g.player x).speed = 0.92 * x.speed ∧
          (0 < (x.pos - g.player.pos).length_squared →
            (pushed_if_hit g.player x).direction = (x.pos - g.player.pos).normalize) := by
      intro x _ hx
      rw [pushed_if_hit, if_pos hx]
      exact ⟨mul_comm x.speed 0.92, fun hp => by rw [if_pos hp]⟩
    rw [Game.enemy_collision_loop]
    by_cases hc : e.collides_with_player g.player
    · rw [if_pos hc, if_neg hinv]
      dsimp only
      obtain ⟨ih1, ih2, ih3, ih4, ih5, ih6, _⟩ :=
        claim_C2_invuln_pushback o rest { g with score := g.score + 2 } hinv
      dsimp only at ih1 ih2 ih3 ih4 ih5 ih6
      have hcnt : ((e :: rest).countP fun x => decide (x.collides_with_player g.player)) =
          (rest.countP fun x => decide (x.collides_with_player g.player)) + 1 :=
        List.countP_cons_of_pos _ _ (by simpa using hc)
      refine ⟨?_, ?_, ih3, ih4, ih5, ih6, hper⟩
      · rw [List.map_cons, ih1, pushed_if_hit, if_pos hc]
      · rw [ih2, hcnt]; push_cast; ring
    · rw [if_neg hc]
      dsimp only
      obtain ⟨ih1, ih2, ih3, ih4, ih5, ih6, _⟩ := claim_C2_invuln_pushback o rest g hinv
      have hcnt : ((e :: rest).countP fun x => decide (x.collides_with_player g.player)) =
          (rest.countP fun x => decide (x.collides_with_player g.player)) :=
        List.countP_cons_of_neg _ _ (by simpa using hc)
      refine ⟨?_, ?_, ih3, ih4, ih5, ih6, hper⟩
      · rw [List.map_cons, ih1, pushed_if_hit, if_neg hc]
      · rw [ih2, hcnt]

/-- An enemy of speed 100 sitting exactly on the player's position. -/
noncomputable def cexEnemyC2 : Enemy :=
  { pos := ⟨WIDTH / 2, HEIGHT / 2⟩, direction := ⟨1, 0⟩, radius := 12, speed := 100,
    spin := 0, angle := 0, color := (255, 90, 120) }

/-- Variant of `cexGameC1` with an invulnerable player (mid-dash grace window) and
the single enemy `cexEnemyC2`. -/
noncomputable def cexGameC2 : Game :=
  { cexGameC1 with
    player := { Player.init with invuln_timer := ⟨0.1⟩ }
    enemies := [cexEnemyC2]
    score := 0 }

/-- Counterexample to claim C2 as stated: an invulnerable pushback
multiplies the enemy's speed by 0.92 — speed 100 becomes 92, an 8 %
reduction, not the claimed 6 % (which would give 94).  (The same run
also shows the direction is left unchanged when the enemy sits exactly
on the player, where no unit vector away from the player exists.) -/
theorem claim_C2_counterexample :
    ¬cexGameC2.player.can_be_hit ∧
      cexEnemyC2.collides_with_player cexGameC2.player ∧
      cexEnemyC2.speed = 100 ∧
      (Game.enemy_collision_loop cexOracle [cexEnemyC2] cexGameC2).1 =
        [{ cexEnemyC2 with speed := 92 }] ∧
      (92 : ℝ) ≠ 100 - 100 * (6 / 100) := by
  have hinv : ¬cexGameC2.player.can_be_hit := by
    simp only [cexGameC2, Player.can_be_hit, Timer.active]
    norm_num
  have hcol : cexEnemyC2.collides_with_player cexGameC2.player := by
    simp only [cexGameC2, cexEnemyC2, Player.init, Enemy.collides_with_player,
      Vec2.length_squared, Vec2.sub_x, Vec2.sub_y]
    norm_num
  have hzero : ¬(0 < (cexEnemyC2.pos - cexGameC2.player.pos).length_squared) := by
    simp only [cexGameC2, cexEnemyC2, Player.init, Vec2.length_squared, Vec2.sub_x,
      Vec2.sub_y]
    norm_num
  refine ⟨hinv, hcol, rfl, ?_, by norm_num⟩
  rw [Game.enemy_collision_loop, if_pos hcol, if_neg hinv]
  dsimp only
  rw [Game.enemy_collision_loop]
  rw [if_neg hzero]
  have hspeed : cexEnemyC2.speed * 0.92 = (92 : ℝ) := by
    norm_num [cexEnemyC2]
  rw [hspeed]

/-- Concrete instance of `claim_C2_invuln_pushback` on `cexGameC2`. -/
theorem claim_C2_invuln_pushback_witness :
    ¬cexGameC2.player.can_be_hit ∧
      (Game.enemy_collision_loop cexOracle [cexEnemyC2] cexGameC2).1 =
        [cexEnemyC2].map (pushed_if_hit cexGameC2.player) ∧
      (Game.enemy_collision_loop cexOracle [cexEnemyC2] cexGameC2).2.score =
        cexGameC2.score +
          2 * ([cexEnemyC2].countP fun e => decide (e.collides_with_player cexGameC2.player)) := by
  have hinv : ¬cexGameC2.player.can_be_hit := by
    simp only [cexGameC2, Player.can_be_hit, Timer.active]
    norm_num
  have happ := claim_C2_invuln_pushback cexOracle [cexEnemyC2] cexGameC2 hinv
  exact ⟨hinv, happ.1, happ.2.1⟩

end NeonDrift
